import Mathlib

/-!
Verification development for the dice-grid renderer core
(`src/DiceRenderer/DiceRenderer.ts`): the per-object transform
synchronizer, the Idle/Hovered/Dragged visual state machine, and the
per-tick transform composition.  The source file holds two variants of
the renderer, an orthographic one and a perspective one; both are
embedded below.  Numeric fields are modelled as exact rationals; the
camera's `unproject` comes from the external three.js library and is
treated as an opaque parameter.  A JavaScript division is modelled by
`jsDiv`, which returns `none` when the denominator is zero (in JS the
result would be a non-finite IEEE value — Infinity or NaN — so `none`
marks "the computation divided by zero and the value is non-finite").
-/

namespace DiceRenderer

/-- Source constant `IDLE_ROTATE_SPEED = 0.005`. -/
def IDLE_ROTATE_SPEED : ℚ := 0.005

/-- Source constant `DRAG_ROTATE_SPEED = 0.04`. -/
def DRAG_ROTATE_SPEED : ℚ := 0.04

/-- Source constant `SCALE = 0.4`. -/
def SCALE : ℚ := 0.4

/-- A 3-vector of exact rationals, modelling `THREE.Vector3`
(whose no-argument constructor yields `(0, 0, 0)`). -/
structure Vec3 where
  x : ℚ
  y : ℚ
  z : ℚ
  deriving DecidableEq, Repr

/-- `new THREE.Vector3` with no arguments. -/
def Vec3.zero : Vec3 := ⟨0, 0, 0⟩

/-- Componentwise product, modelling `Vector3.multiplyVectors`. -/
def Vec3.mul (a b : Vec3) : Vec3 := ⟨a.x * b.x, a.y * b.y, a.z * b.z⟩

/-- Componentwise sum, modelling `Vector3.addVectors`. -/
def Vec3.add (a b : Vec3) : Vec3 := ⟨a.x + b.x, a.y + b.y, a.z + b.z⟩

/-- A DOM rectangle as returned by `getBoundingClientRect`:
`left`, `top`, `width`, `height` in host (page) coordinates. -/
structure Rect where
  left : ℚ
  top : ℚ
  width : ℚ
  height : ℚ
  deriving DecidableEq, Repr

/-- JavaScript division on exact values: `none` when the denominator is
zero, since JS then yields a non-finite IEEE value (±Infinity, or NaN
for `0/0`) instead of a number this exact model can represent. -/
def jsDiv (a b : ℚ) : Option ℚ :=
  if b = 0 then none else some (a / b)

/-- The visual states of a dice: singletons `IdleState`, `HoverState`,
`DragState` of the source (stateless, so a plain enum here). -/
inductive DState where
  | Idle
  | Hover
  | Drag
  deriving DecidableEq, Repr

/-- The fields of a `DiceCrystal` that the state machine and the
transform code read and write.  `position` / `scale` are the animated
offset and factor (gsap tween targets); `_position` / `_scale` are the
layout-derived base transform; `meshPosition` / `meshScale` are the
composed transform written to `this.mesh` each tick.  The mesh's y
rotation involves π and is modelled separately over ℝ below. -/
structure Crystal where
  state : DState
  isHovered : Bool
  isDragged : Bool
  position : Vec3
  «_position» : Vec3
  scale : Vec3
  «_scale» : Vec3
  meshPosition : Vec3
  meshScale : Vec3
  deriving DecidableEq, Repr

/-- NDC of the layout rectangle's center in the orthographic variant
(source lines 111-112):
`xNDC = ((rect.left + rect.width / 2) - gridRect.left) / gridRect.width * 2 - 1`,
`yNDC = -(((rect.top + rect.height / 2) - gridRect.top) / gridRect.height * 2 - 1)`. -/
def ndcOrtho (rect gridRect : Rect) : Option (ℚ × ℚ) := do
  let qx ← jsDiv ((rect.left + rect.width / 2) - gridRect.left) gridRect.width
  let qy ← jsDiv ((rect.top + rect.height / 2) - gridRect.top) gridRect.height
  pure (qx * 2 - 1, -(qy * 2 - 1))

/-- The same computation in the perspective variant (source lines
323-329), where the multiplier is the local constant `sc = 200`
instead of `2`. -/
def ndcPersp (rect gridRect : Rect) : Option (ℚ × ℚ) := do
  let sc : ℚ := 200
  let qx ← jsDiv ((rect.left + rect.width / 2) - gridRect.left) gridRect.width
  let qy ← jsDiv ((rect.top + rect.height / 2) - gridRect.top) gridRect.height
  pure (qx * sc - 1, -(qy * sc - 1))

/-- `DiceCrystal.updateTransform` of the orthographic variant: compute
the NDC of the div's center, un-project it through the camera (external
three.js code, passed as the opaque `unproject`), set `_scale` to
`rect.width * SCALE` on all three axes, and set `_position` to the
world x and y while keeping its own z. -/
def updateTransform (unproject : ℚ → ℚ → Vec3) (rect gridRect : Rect)
    (c : Crystal) : Option Crystal :=
  match ndcOrtho rect gridRect with
  | none => none
  | some (xNDC, yNDC) =>
    let worldPosition := unproject xNDC yNDC
    let scaleFactor := rect.width * SCALE
    some { c with
      «_scale» := ⟨scaleFactor, scaleFactor, scaleFactor⟩,
      «_position» := ⟨worldPosition.x, worldPosition.y, c.«_position».z⟩ }

/-- `DiceCrystal.updateTransform` of the perspective variant: the scale
computation is commented out in the source, so `_scale` is untouched;
`_position` is updated exactly as in the orthographic variant but from
the `sc = 200` NDC. -/
def updateTransformPersp (unproject : ℚ → ℚ → Vec3) (rect gridRect : Rect)
    (c : Crystal) : Option Crystal :=
  match ndcPersp rect gridRect with
  | none => none
  | some (xNDC, yNDC) =>
    let worldPosition := unproject xNDC yNDC
    some { c with
      «_position» := ⟨worldPosition.x, worldPosition.y, c.«_position».z⟩ }

/-- The NDC formula exactly as the specification states it (S4.1), with
total rational division; used only to compare the code against the
spec's words. -/
def ndcSpecFormula (rect gridRect : Rect) : ℚ × ℚ :=
  (((rect.left + rect.width / 2) - gridRect.left) / gridRect.width * 2 - 1,
   -(((rect.top + rect.height / 2) - gridRect.top) / gridRect.height * 2 - 1))

/-- Observable events of the state machine: `exit` / `enter` calls on
the state singletons, and the reassignment of `this.state`.  The gsap
calls made inside `enter` / `exit` start or cancel tweens in the
external animation engine and change no `DiceCrystal` field
synchronously, so they do not appear in the `Crystal` record. -/
inductive Ev where
  | exit : DState → Ev
  | assign : DState → Ev
  | enter : DState → Ev
  deriving DecidableEq, Repr

/-- `DiceCrystal.setState`: `this.state.exit(this)`, then
`this.state = newState`, then `this.state.enter(this)`.  Returns the
updated crystal together with the event trace of the call. -/
def setState (c : Crystal) (newState : DState) : Crystal × List Ev :=
  ({ c with state := newState },
   [Ev.exit c.state, Ev.assign newState, Ev.enter newState])

/-- One invocation of the current state's `update` (the transition
logic of `IdleState.update`, `HoverState.update`, `DragState.update`;
identical in both variants).  The rotation advance performed by the
Idle and Drag updates involves π and is modelled separately over ℝ
(`idleRotStep`, `dragRotStep`); it touches only `mesh.rotation.y`,
which is not a field of `Crystal`. -/
def update (c : Crystal) : Crystal × List Ev :=
  match c.state with
  | DState.Idle =>
    if c.isDragged then setState c DState.Drag
    else if c.isHovered then setState c DState.Hover
    else (c, [])
  | DState.Hover =>
    if c.isDragged then setState c DState.Drag
    else if !c.isHovered then setState c DState.Idle
    else (c, [])
  | DState.Drag =>
    if !c.isDragged then setState c DState.Idle
    else (c, [])

/-- `DiceCrystal.tick` of the orthographic variant:
`this.state.update(this)`, then
`this.mesh.scale.multiplyVectors(this._scale, this.scale)`,
`this.mesh.position.addVectors(this._position, this.position)`, and
finally `this._position.z = this.isHovered || this.isDragged ? 400 : 0`. -/
def tick (c : Crystal) : Crystal × List Ev :=
  let s := update c
  let c1 := s.1
  let c2 := { c1 with
    meshScale := Vec3.mul c1.«_scale» c1.scale,
    meshPosition := Vec3.add c1.«_position» c1.position }
  let c3 := { c2 with
    «_position» := ⟨c2.«_position».x, c2.«_position».y,
      if c2.isHovered || c2.isDragged then 400 else 0⟩ }
  (c3, s.2)

/-- `DiceCrystal.tick` of the perspective variant: same composition,
but the `_position.z` reassignment is commented out in the source. -/
def tickPersp (c : Crystal) : Crystal × List Ev :=
  let s := update c
  let c1 := s.1
  let c2 := { c1 with
    meshScale := Vec3.mul c1.«_scale» c1.scale,
    meshPosition := Vec3.add c1.«_position» c1.position }
  (c2, s.2)

/-- The field-initializer values of a `DiceCrystal` in the orthographic
variant, as they stand when the constructor body begins:
`state = DiceStates.IdleState`, `isHovered = false`, `isDragged =
false`, and all four vectors are `new THREE.Vector3` = (0,0,0).  A
fresh `THREE.Mesh` has position (0,0,0) and scale (1,1,1). -/
def crystalInit : Crystal :=
  { state := DState.Idle, isHovered := false, isDragged := false,
    position := Vec3.zero, «_position» := Vec3.zero,
    scale := Vec3.zero, «_scale» := Vec3.zero,
    meshPosition := ⟨0, 0, 0⟩, meshScale := ⟨1, 1, 1⟩ }

/-- The field-initializer values in the perspective variant: identical
except `scale = new THREE.Vector3(1, 1, 1)` and
`_scale = new THREE.Vector3(1, 1, 1)`. -/
def crystalInitPersp : Crystal :=
  { state := DState.Idle, isHovered := false, isDragged := false,
    position := Vec3.zero, «_position» := Vec3.zero,
    scale := ⟨1, 1, 1⟩, «_scale» := ⟨1, 1, 1⟩,
    meshPosition := ⟨0, 0, 0⟩, meshScale := ⟨1, 1, 1⟩ }

/-- The state-machine effect of the `DiceCrystal` constructor body
(both variants): after the field initializers have run — in particular
`state` already holds `DiceStates.IdleState` — the constructor calls
`this.setState(DiceStates.IdleState)`. -/
def constructTrace : Crystal × List Ev :=
  setState crystalInit DState.Idle

/-- The JS remainder `r = a % b` on exact reals: JS truncates the
quotient toward zero, so the quotient is `⌊a / b⌋` when `a / b` is
nonnegative and `⌈a / b⌉` otherwise.  Stated as a relation because ℝ
division and floor are not executable. -/
def jsFmod (a b r : ℝ) : Prop :=
  (0 ≤ a / b ∧ r = a - b * (⌊a / b⌋ : ℤ)) ∨
  (a / b < 0 ∧ r = a - b * (⌈a / b⌉ : ℤ))

/-- One rotation advance of `IdleState.update`:
`dice.mesh.rotation.y = (dice.mesh.rotation.y + IDLE_ROTATE_SPEED) % (Math.PI * 2)`. -/
def idleRotStep (y yNext : ℝ) : Prop :=
  jsFmod (y + (IDLE_ROTATE_SPEED : ℚ)) (Real.pi * 2) yNext

/-- One rotation advance of `DragState.update`:
`dice.mesh.rotation.y = (dice.mesh.rotation.y + DRAG_ROTATE_SPEED) % (Math.PI * 2)`. -/
def dragRotStep (y yNext : ℝ) : Prop :=
  jsFmod (y + (DRAG_ROTATE_SPEED : ℚ)) (Real.pi * 2) yNext

/-- `n` consecutive Idle rotation advances. -/
def idleRotChain : ℕ → ℝ → ℝ → Prop
  | 0, y, yNext => yNext = y
  | n + 1, y, yNext => ∃ z, idleRotStep y z ∧ idleRotChain n z yNext

/-- C3: for every object in every state (Idle, Hovered, or Dragged) and
every value of `isHovered`, if `isDragged` is true then after one
invocation of the state machine's `update` the object's current state
is Dragged. -/
theorem drag_flag_forces_drag_state (c : Crystal) (h : c.isDragged = true) :
    (update c).1.state = DState.Drag := by
  cases hs : c.state <;> simp [update, setState, hs, h]

/-- Witness for C3 at a concrete hovered, dragged, idle crystal. -/
theorem drag_flag_forces_drag_state_witness :
    ({ crystalInit with isDragged := true, isHovered := true } : Crystal).isDragged = true ∧
    (update { crystalInit with isDragged := true, isHovered := true }).1.state = DState.Drag :=
  ⟨rfl, drag_flag_forces_drag_state { crystalInit with isDragged := true, isHovered := true } rfl⟩

/-- C4: for every object in state Dragged, if `isDragged` is false then
the next `update` transitions the object to Idle and never to Hovered,
even when `isHovered` is true at that moment. -/
theorem drag_release_goes_to_idle (c : Crystal) (hs : c.state = DState.Drag)
    (hd : c.isDragged = false) :
    (update c).1.state = DState.Idle ∧ (update c).1.state ≠ DState.Hover := by
  simp [update, setState, hs, hd]

/-- Witness for C4 at a concrete dragged-state crystal whose
`isDragged` flag has been cleared while `isHovered` is true. -/
theorem drag_release_goes_to_idle_witness :
    ({ crystalInit with state := DState.Drag, isHovered := true } : Crystal).state = DState.Drag ∧
    ({ crystalInit with state := DState.Drag, isHovered := true } : Crystal).isDragged = false ∧
    ((update { crystalInit with state := DState.Drag, isHovered := true }).1.state = DState.Idle ∧
     (update { crystalInit with state := DState.Drag, isHovered := true }).1.state ≠ DState.Hover) :=
  ⟨rfl, rfl, drag_release_goes_to_idle { crystalInit with state := DState.Drag, isHovered := true } rfl rfl⟩

/-- C5 counterexample: the claim says `setState` is never invoked with
the state the object is already in, construction included; but the
constructor's `setState(DiceStates.IdleState)` call runs while the
field initializer has already set `state` to `IdleState`, so its trace
exits and re-enters the very state the object is in. -/
theorem construct_setState_same_state :
    crystalInit.state = DState.Idle ∧
    constructTrace.2 =
      [Ev.exit crystalInit.state, Ev.assign crystalInit.state, Ev.enter crystalInit.state] := by
  constructor <;> rfl

/-- C5 amended: every `setState` call runs `exit` on the current state,
then reassigns `state`, then runs `enter` on the new state; every
`update`-driven transition targets a state different from the current
one; the one exception is the constructor, whose `setState(Idle)` call
is a same-state reassignment (the field initializer already holds
Idle), and even there exit and enter both run. -/
theorem setState_protocol_no_self_reentry :
    (∀ (c : Crystal) (ns : DState),
      setState c ns = ({ c with state := ns }, [Ev.exit c.state, Ev.assign ns, Ev.enter ns])) ∧
    (∀ c : Crystal, (update c).2 = [] ∨
      ∃ ns, ns ≠ c.state ∧ (update c).2 = [Ev.exit c.state, Ev.assign ns, Ev.enter ns]) ∧
    constructTrace.2 = [Ev.exit DState.Idle, Ev.assign DState.Idle, Ev.enter DState.Idle] := by
  refine ⟨fun c ns => rfl, fun c => ?_, rfl⟩
  cases hs : c.state <;> cases hd : c.isDragged <;> cases hh : c.isHovered <;>
    simp [update, setState, hs, hd, hh]

/-- C8: after every tick, the mesh scale is the componentwise product
of the base scale `_scale` and the animated factor `scale`, and the
mesh position is the componentwise sum of the base position `_position`
and the animated offset `position`, both recomputed from the field
values of that tick (the state machine's `update`, which runs first,
changes none of those four fields synchronously). -/
theorem tick_composes_base_and_animated (c : Crystal) :
    (tick c).1.meshScale = Vec3.mul c.«_scale» c.scale ∧
    (tick c).1.meshPosition = Vec3.add c.«_position» c.position := by
  cases hs : c.state <;> cases hd : c.isDragged <;> cases hh : c.isHovered <;>
    simp [tick, update, setState, hs, hd, hh]

/-- C10: in the orthographic variant the animated scale factor starts
as the zero vector (`new THREE.Vector3`), so as long as the Idle enter
animation has not yet moved it, a tick composes a mesh scale of exactly
zero; in the perspective variant the factor starts at the neutral
`(1, 1, 1)`. -/
theorem initial_scale_factor_zero_ortho :
    crystalInit.scale = Vec3.zero ∧
    (∀ c : Crystal, c.scale = Vec3.zero → (tick c).1.meshScale = Vec3.zero) ∧
    crystalInitPersp.scale = ⟨1, 1, 1⟩ := by
  refine ⟨rfl, fun c h => ?_, rfl⟩
  cases hs : c.state <;> cases hd : c.isDragged <;> cases hh : c.isHovered <;>
    simp [tick, update, setState, hs, hd, hh, h, Vec3.mul, Vec3.zero]

/-- Witness for C10's conditional part: the freshly constructed
orthographic crystal really composes a zero mesh scale on its first
tick. -/
theorem initial_scale_factor_zero_ortho_witness :
    crystalInit.scale = Vec3.zero ∧ (tick crystalInit).1.meshScale = Vec3.zero :=
  ⟨rfl, initial_scale_factor_zero_ortho.2.1 crystalInit rfl⟩

/-- C1 counterexample: the perspective variant does not compute the
spec's NDC formula.  At a 2×2 rectangle at the origin of a 4×4
viewport the spec formula gives (-1/2, 1/2), but the perspective
variant (whose multiplier is `sc = 200` instead of `2`) gives
(49, -49). -/
theorem ndcPersp_deviates_from_formula :
    ndcPersp ⟨0, 0, 2, 2⟩ ⟨0, 0, 4, 4⟩ ≠
      some (ndcSpecFormula ⟨0, 0, 2, 2⟩ ⟨0, 0, 4, 4⟩) := by
  norm_num [ndcPersp, ndcSpecFormula, jsDiv]

/-- C1 amended: with nonzero viewport dimensions, the orthographic
variant computes exactly the spec's NDC formula
`((center - viewportOrigin) / viewportExtent) * 2 - 1` with the y axis
negated, while the perspective variant computes the same expression
with the local constant `sc = 200` in place of the factor `2`. -/
theorem ndc_center_formulas (rect gridRect : Rect)
    (hw : gridRect.width ≠ 0) (hh : gridRect.height ≠ 0) :
    ndcOrtho rect gridRect = some (ndcSpecFormula rect gridRect) ∧
    ndcPersp rect gridRect = some
      (((rect.left + rect.width / 2) - gridRect.left) / gridRect.width * 200 - 1,
       -(((rect.top + rect.height / 2) - gridRect.top) / gridRect.height * 200 - 1)) := by
  constructor <;> simp [ndcOrtho, ndcPersp, ndcSpecFormula, jsDiv, hw, hh]

/-- Witness for C1's amended theorem at a 2×2 rectangle at the origin
of a 4×4 viewport. -/
theorem ndc_center_formulas_witness :
    ((⟨0, 0, 4, 4⟩ : Rect).width ≠ 0 ∧ (⟨0, 0, 4, 4⟩ : Rect).height ≠ 0) ∧
    ndcOrtho ⟨0, 0, 2, 2⟩ ⟨0, 0, 4, 4⟩ = some (ndcSpecFormula ⟨0, 0, 2, 2⟩ ⟨0, 0, 4, 4⟩) :=
  ⟨⟨by norm_num, by norm_num⟩,
   (ndc_center_formulas ⟨0, 0, 2, 2⟩ ⟨0, 0, 4, 4⟩ (by norm_num) (by norm_num)).1⟩

/-- C2 counterexample: with a zero-sized viewport rectangle,
`updateTransform` does not produce a defined fallback — the NDC
division's denominator is zero, which in JS yields a non-finite value
(modelled `none`), and no guard in the code intercepts it. -/
theorem updateTransform_zero_viewport_no_fallback :
    updateTransform (fun a b => ⟨a, b, 0⟩) ⟨0, 0, 2, 2⟩ ⟨0, 0, 0, 0⟩ crystalInit = none := by
  rfl

/-- C2 amended: `updateTransform` contains no zero-viewport guard —
whenever the viewport rectangle's width or height is zero it performs
the division by zero anyway, so (in JS) the NDC and the written base
position are non-finite rather than any defined fallback such as
NDC (0, 0). -/
theorem updateTransform_zero_viewport_divides (unproject : ℚ → ℚ → Vec3)
    (rect gridRect : Rect) (c : Crystal)
    (h : gridRect.width = 0 ∨ gridRect.height = 0) :
    updateTransform unproject rect gridRect c = none := by
  rcases h with h | h
  · simp [updateTransform, ndcOrtho, jsDiv, h]
  · cases hq : jsDiv ((rect.left + rect.width / 2) - gridRect.left) gridRect.width <;>
      simp [updateTransform, ndcOrtho, jsDiv, h, hq]

/-- Witness for C2's amended theorem at a viewport of width zero. -/
theorem updateTransform_zero_viewport_divides_witness :
    ((⟨0, 0, 0, 4⟩ : Rect).width = 0 ∨ (⟨0, 0, 0, 4⟩ : Rect).height = 0) ∧
    updateTransform (fun a b => ⟨a, b, 0⟩) ⟨0, 0, 2, 2⟩ ⟨0, 0, 0, 4⟩ crystalInit = none :=
  ⟨Or.inl rfl,
   updateTransform_zero_viewport_divides (fun a b => ⟨a, b, 0⟩) ⟨0, 0, 2, 2⟩ ⟨0, 0, 0, 4⟩
     crystalInit (Or.inl rfl)⟩

/-- With nonzero viewport dimensions the orthographic NDC computation
succeeds, yielding exactly the source's two expressions. -/
lemma ndcOrtho_some (rect gridRect : Rect)
    (hw : gridRect.width ≠ 0) (hh : gridRect.height ≠ 0) :
    ndcOrtho rect gridRect = some
      (((rect.left + rect.width / 2) - gridRect.left) / gridRect.width * 2 - 1,
       -(((rect.top + rect.height / 2) - gridRect.top) / gridRect.height * 2 - 1)) := by
  simp [ndcOrtho, jsDiv, hw, hh]

/-- Closed form of a successful orthographic `updateTransform` call. -/
lemma updateTransform_eq (unproject : ℚ → ℚ → Vec3) (rect gridRect : Rect) (c : Crystal)
    (hw : gridRect.width ≠ 0) (hh : gridRect.height ≠ 0) :
    updateTransform unproject rect gridRect c = some { c with
      «_scale» := ⟨rect.width * SCALE, rect.width * SCALE, rect.width * SCALE⟩,
      «_position» := ⟨(unproject (((rect.left + rect.width / 2) - gridRect.left) / gridRect.width * 2 - 1) (-(((rect.top + rect.height / 2) - gridRect.top) / gridRect.height * 2 - 1))).x, (unproject (((rect.left + rect.width / 2) - gridRect.left) / gridRect.width * 2 - 1) (-(((rect.top + rect.height / 2) - gridRect.top) / gridRect.height * 2 - 1))).y, c.«_position».z⟩ } := by
  rw [updateTransform, ndcOrtho_some rect gridRect hw hh]

/-- C6: with nonzero viewport dimensions, `updateTransform` is
idempotent — a first call yields some crystal `c1`, and a second call
with unchanged inputs maps `c1` back to exactly `c1` (same base
position, including its preserved z, and same base scale). -/
theorem updateTransform_idempotent (unproject : ℚ → ℚ → Vec3)
    (rect gridRect : Rect) (c : Crystal)
    (hw : gridRect.width ≠ 0) (hh : gridRect.height ≠ 0) :
    ∃ c1, updateTransform unproject rect gridRect c = some c1 ∧
      updateTransform unproject rect gridRect c1 = some c1 := by
  refine ⟨_, updateTransform_eq unproject rect gridRect c hw hh, ?_⟩
  rw [updateTransform_eq unproject rect gridRect _ hw hh]

/-- Witness for C6 at a concrete rectangle, viewport and camera. -/
theorem updateTransform_idempotent_witness :
    ((⟨0, 0, 4, 8⟩ : Rect).width ≠ 0 ∧ (⟨0, 0, 4, 8⟩ : Rect).height ≠ 0) ∧
    ∃ c1, updateTransform (fun a b => ⟨a, b, 5⟩) ⟨1, 1, 2, 2⟩ ⟨0, 0, 4, 8⟩ crystalInit = some c1 ∧
      updateTransform (fun a b => ⟨a, b, 5⟩) ⟨1, 1, 2, 2⟩ ⟨0, 0, 4, 8⟩ c1 = some c1 :=
  ⟨⟨by norm_num, by norm_num⟩,
   updateTransform_idempotent (fun a b => ⟨a, b, 5⟩) ⟨1, 1, 2, 2⟩ ⟨0, 0, 4, 8⟩ crystalInit
     (by norm_num) (by norm_num)⟩

/-- C7: in both variants, a successful `updateTransform` overwrites
only the x and y of the base position from the un-projected world
point; the z component of `_position` is preserved exactly. -/
theorem updateTransform_preserves_z (unproject : ℚ → ℚ → Vec3)
    (rect gridRect : Rect) (c c1 : Crystal) :
    (updateTransform unproject rect gridRect c = some c1 →
      c1.«_position».z = c.«_position».z) ∧
    (updateTransformPersp unproject rect gridRect c = some c1 →
      c1.«_position».z = c.«_position».z) := by
  constructor
  · intro h
    cases hnd : ndcOrtho rect gridRect with
    | none => simp [updateTransform, hnd] at h
    | some p =>
      rw [updateTransform, hnd] at h
      cases h
      rfl
  · intro h
    cases hnd : ndcPersp rect gridRect with
    | none => simp [updateTransformPersp, hnd] at h
    | some p =>
      rw [updateTransformPersp, hnd] at h
      cases h
      rfl

/-- Witness for C7: a concrete successful orthographic call whose
output base position keeps the input's z. -/
theorem updateTransform_preserves_z_witness :
    updateTransform (fun a b => ⟨a, b, 9⟩) ⟨1, 1, 2, 2⟩ ⟨0, 0, 4, 8⟩ crystalInit =
      some { crystalInit with «_scale» := ⟨4/5, 4/5, 4/5⟩, «_position» := ⟨0, 1/2, 0⟩ } ∧
    ({ crystalInit with «_scale» := ⟨4/5, 4/5, 4/5⟩, «_position» := ⟨0, 1/2, 0⟩ } : Crystal).«_position».z = crystalInit.«_position».z := by
  have h : updateTransform (fun a b => ⟨a, b, 9⟩) ⟨1, 1, 2, 2⟩ ⟨0, 0, 4, 8⟩ crystalInit =
      some { crystalInit with «_scale» := ⟨4/5, 4/5, 4/5⟩, «_position» := ⟨0, 1/2, 0⟩ } := by
    rw [updateTransform_eq _ _ _ _ (by norm_num) (by norm_num)]
    norm_num [SCALE, crystalInit, Vec3.zero]
  exact ⟨h, (updateTransform_preserves_z (fun a b => ⟨a, b, 9⟩) ⟨1, 1, 2, 2⟩ ⟨0, 0, 4, 8⟩
    crystalInit { crystalInit with «_scale» := ⟨4/5, 4/5, 4/5⟩, «_position» := ⟨0, 1/2, 0⟩ }).1 h⟩

/-- With a positive divisor and a nonnegative dividend, the JS
remainder is the divisor times the fractional part of the quotient. -/
lemma jsFmod_eq_fract (a b r : ℝ) (hb : 0 < b) (ha : 0 ≤ a) (h : jsFmod a b r) :
    r = b * Int.fract (a / b) := by
  rcases h with ⟨_, hr⟩ | ⟨hneg, _⟩
  · have hba : b * (a / b) = a := mul_div_cancel₀ a (ne_of_gt hb)
    rw [hr, Int.fract, mul_sub, hba]
  · exact absurd (div_nonneg ha hb.le) (not_le.2 hneg)

/-- With a positive divisor and a nonnegative dividend, the JS
remainder lies in [0, divisor). -/
lemma jsFmod_mem_Ico (a b r : ℝ) (hb : 0 < b) (ha : 0 ≤ a) (h : jsFmod a b r) :
    0 ≤ r ∧ r < b := by
  rw [jsFmod_eq_fract a b r hb ha h]
  refine ⟨mul_nonneg hb.le (Int.fract_nonneg _), ?_⟩
  calc b * Int.fract (a / b) < b * 1 := (mul_lt_mul_left hb).2 (Int.fract_lt_one _)
    _ = b := mul_one b

/-- When the dividend already lies in [0, divisor), the JS remainder is
the dividend itself. -/
lemma jsFmod_eq_self (a b r : ℝ) (hb : 0 < b) (ha : 0 ≤ a) (hab : a < b)
    (h : jsFmod a b r) : r = a := by
  have hfl : ⌊a / b⌋ = 0 := by
    rw [Int.floor_eq_zero_iff]
    exact ⟨div_nonneg ha hb.le, (div_lt_one hb).2 hab⟩
  rcases h with ⟨_, hr⟩ | ⟨hneg, _⟩
  · rw [hr, hfl]
    simp
  · exact absurd (div_nonneg ha hb.le) (not_le.2 hneg)

/-- One Idle rotation advance starting in [0, 2π) lands in [0, 2π). -/
lemma idleRotStep_bounds (y yN : ℝ) (h0 : 0 ≤ y) (hs : idleRotStep y yN) :
    0 ≤ yN ∧ yN < Real.pi * 2 := by
  have hb : (0 : ℝ) < Real.pi * 2 := by positivity
  have hsp : (0 : ℝ) ≤ ((IDLE_ROTATE_SPEED : ℚ) : ℝ) := by
    norm_num [IDLE_ROTATE_SPEED]
  exact jsFmod_mem_Ico _ _ _ hb (by linarith) hs

/-- C9: under any sequence of consecutive Idle updates starting with
the y rotation angle in [0, 2π), the angle stays in [0, 2π); and any
single update that does not wrap (current angle plus the idle speed
still below 2π) adds exactly `IDLE_ROTATE_SPEED`, strictly increasing
the angle. -/
theorem idle_rotation_stays_in_turn (n : ℕ) (y yN : ℝ)
    (h0 : 0 ≤ y) (h1 : y < Real.pi * 2) (hc : idleRotChain n y yN) :
    (0 ≤ yN ∧ yN < Real.pi * 2) ∧
    (∀ z zN, 0 ≤ z → z + (IDLE_ROTATE_SPEED : ℚ) < Real.pi * 2 → idleRotStep z zN →
      zN = z + (IDLE_ROTATE_SPEED : ℚ) ∧ z < zN) := by
  constructor
  · induction n generalizing y with
    | zero =>
      have hc' : yN = y := hc
      subst hc'
      exact ⟨h0, h1⟩
    | succ n ih =>
      have hc' : ∃ z, idleRotStep y z ∧ idleRotChain n z yN := hc
      obtain ⟨z, hstep, hchain⟩ := hc'
      obtain ⟨hz0, hz1⟩ := idleRotStep_bounds y z h0 hstep
      exact ih z hz0 hz1 hchain
  · intro z zN hz0 hzlt hstep
    have hb : (0 : ℝ) < Real.pi * 2 := by positivity
    have hsp : (0 : ℝ) < ((IDLE_ROTATE_SPEED : ℚ) : ℝ) := by
      norm_num [IDLE_ROTATE_SPEED]
    have heq : zN = z + ((IDLE_ROTATE_SPEED : ℚ) : ℝ) :=
      jsFmod_eq_self _ _ _ hb (by linarith) hzlt hstep
    exact ⟨heq, by rw [heq]; linarith⟩

/-- Witness for C9: the empty chain at angle 0. -/
theorem idle_rotation_stays_in_turn_witness :
    ((0 : ℝ) ≤ 0 ∧ (0 : ℝ) < Real.pi * 2 ∧ idleRotChain 0 0 0) ∧
    ((0 ≤ (0 : ℝ) ∧ (0 : ℝ) < Real.pi * 2) ∧
     (∀ z zN, 0 ≤ z → z + (IDLE_ROTATE_SPEED : ℚ) < Real.pi * 2 → idleRotStep z zN →
       zN = z + (IDLE_ROTATE_SPEED : ℚ) ∧ z < zN)) :=
  ⟨⟨le_refl 0, by positivity, rfl⟩,
   idle_rotation_stays_in_turn 0 0 0 (le_refl 0) (by positivity) rfl⟩

end DiceRenderer
